import Mathlib

/-!
# gdt `simple_example.c`: lifecycle state machine and touch-drag model

A shallow embedding of `src/simple_example.c`.

* The file's global variables (`_x`, `_y`, `_width`, `_height`, `_offsetUniform`, `_state`) and
  the function-local `static int state` of `on_touch` are the fields of `World`.
* Calls into the collaborators (OpenGL ES 2 and the gdt host library) are recorded, in order, in
  the ghost field `World.calls`; what the collaborators answer is supplied by an oracle `GLES2`
  that may depend on every call issued so far.
* `gdt_fatal` ends the process: a function that reaches it returns `Result.fatal` together with
  the world at that moment.
* Arithmetic is exact: `float` and `double` values are rationals (`ℚ`) and `int` values are
  integers (`Int`). Rounding, infinities and NaN are outside the model, and so is the signed
  overflow of `2 * screenX`, which is undefined behaviour in C. A division by a zero `_width`
  or `_height` has no meaning in the model; the statements about the conversion to normalized
  device coordinates assume positive dimensions.
-/

namespace SimpleExample

/-! ## Data model -/

/-- The lifecycle states, `state_t` of the source. -/
inductive state_t where
  | STATE_NOT_INITIALIZED
  | STATE_INITIALIZED_NOT_VISIBLE
  | STATE_INITIALIZED_VISIBLE_NOT_ACTIVE
  | STATE_INITIALIZED_VISIBLE_ACTIVE
  deriving DecidableEq, Repr

/-- Modelled from the spec: the type `touch_type_t` is declared in `gdt/gdt.h`, which is not part
of the sources; the spec gives the event kinds as Down, Move and Up, and the source names the
constants `TOUCH_DOWN`, `TOUCH_MOVE` and `TOUCH_UP`. -/
inductive touch_type_t where
  | TOUCH_DOWN
  | TOUCH_MOVE
  | TOUCH_UP
  deriving DecidableEq, Repr

/-- The OpenGL ES 2 enumerants the source passes to the rendering collaborator. -/
inductive GLenum where
  | GL_VERTEX_SHADER
  | GL_FRAGMENT_SHADER
  | GL_COMPILE_STATUS
  | GL_LINK_STATUS
  | GL_ARRAY_BUFFER
  | GL_ELEMENT_ARRAY_BUFFER
  | GL_STATIC_DRAW
  | GL_FLOAT
  | GL_COLOR_BUFFER_BIT
  | GL_TRIANGLE_STRIP
  | GL_UNSIGNED_BYTE
  deriving DecidableEq, Repr

/-- The payload of a `glBufferData` call: the `GLfloat` array `v` or the `GLubyte` array `i`. -/
inductive BufferData where
  | floats (v : List ℚ)
  | bytes (i : List Nat)
  deriving DecidableEq

/-- An argument for a format string of `LOG`. -/
inductive LogArg where
  | str (s : String)
  | int (i : Int)
  deriving DecidableEq

/-- One call from `simple_example.c` into a collaborator, with the arguments it passes. -/
inductive Call where
  | glCreateShader (type : GLenum)
  | glShaderSource (shader : Nat) (count : Nat) (code : String) (len : Int)
  | glCompileShader (shader : Nat)
  | glGetShaderiv (shader : Nat) (pname : GLenum)
  | glCreateProgram
  | glAttachShader (program shader : Nat)
  | glLinkProgram (program : Nat)
  | glGetProgramiv (program : Nat) (pname : GLenum)
  | glGetUniformLocation (program : Nat) (name : String)
  | glGetAttribLocation (program : Nat) (name : String)
  | glGenBuffers (n : Nat)
  | glBindBuffer (target : GLenum) (buffer : Nat)
  | glBufferData (target : GLenum) (size : Nat) (data : BufferData) (usage : GLenum)
  | glEnableVertexAttribArray (index : Nat)
  | glVertexAttribPointer (index : Nat) (size : Nat) (type : GLenum) (normalized : Bool)
      (stride : Nat) (pointer : Nat)
  | glUseProgram (program : Nat)
  | glClearColor (r g b a : ℚ)
  | glViewport (x y width height : Int)
  | glClear (mask : GLenum)
  | glUniform2f (location : Nat) (v0 v1 : ℚ)
  | glDrawElements (mode : GLenum) (count : Nat) (type : GLenum) (indices : Nat)
  | gdt_log (tag : String) (format : String) (args : List LogArg)
  | gdt_set_callback_touch
  deriving DecidableEq

/-- What the rendering collaborator answers. Every answer may depend on the calls issued so
far. `glGetShaderiv` and `glGetProgramiv` give the value written to `result`; the other fields
give the returned object name or location. -/
structure GLES2 where
  glCreateShader : List Call → Nat
  glGetShaderiv : List Call → Int
  glCreateProgram : List Call → Nat
  glGetProgramiv : List Call → Int
  glGetUniformLocation : List Call → Int
  glGetAttribLocation : List Call → Int
  glGenBuffers : List Call → Nat

/-- The value of `GL_FALSE`. -/
def GL_FALSE : Int := 0

/-- The host platform the file is compiled for: `GDT_PLATFORM_ANDROID` defined,
`GDT_PLATFORM_IOS` defined, or neither. -/
inductive Platform where
  | android
  | ios
  | other
  deriving DecidableEq, Repr

/-- The program state: the globals of `simple_example.c`, the `static int state` of `on_touch`,
and the calls issued to the collaborators so far (oldest first). -/
structure World where
  _x : ℚ
  _y : ℚ
  _width : Int
  _height : Int
  _offsetUniform : Nat
  _state : state_t
  state : Int
  calls : List Call
  deriving DecidableEq

/-- The outcome of running a function of the source: it returns `val` in world `w`, or the
process was ended by `gdt_fatal` in world `w`. -/
inductive Result (α : Type) where
  | ok (val : α) (w : World)
  | fatal (tag : String) (msg : String) (w : World)

/-- The world in which a run ended. -/
def Result.world {α : Type} : Result α → World
  | .ok _ w => w
  | .fatal _ _ w => w

/-- Whether the run was ended by `gdt_fatal`. -/
def Result.isFatal {α : Type} : Result α → Bool
  | .ok _ _ => false
  | .fatal _ _ _ => true

/-- Sequencing: `k` runs after `r` with the value `r` returned, unless `r` ended the process. -/
def Result.bind {α β : Type} (r : Result α) (k : α → World → Result β) : Result β :=
  match r with
  | .ok val w => k val w
  | .fatal tag msg w => .fatal tag msg w

/-- The world at program start: the initialisers of the globals (`_width`, `_height` and
`_offsetUniform` have static storage and no initialiser, so they start at zero). -/
def World.init : World :=
  { _x := -0.5, _y := 0.5, _width := 0, _height := 0, _offsetUniform := 0,
    _state := .STATE_NOT_INITIALIZED, state := 0, calls := [] }

/-- Record a call to a collaborator. -/
def World.call (w : World) (c : Call) : World :=
  { w with calls := w.calls ++ [c] }

/-! ## Constants -/

def simpleVertexShader : String :=
  "                               uniform vec2 offset;                                          attribute vec4 position;                                      void main(void) \x7b                                                 gl_Position = position + vec4(offset.x, offset.y, 0, 0);  \x7d                                                             "

def redFragmentShader : String :=
  "         void main(void) \x7b                          gl_FragColor = vec4(1, 0, 0, 1);   \x7d                                      "

def TAG : String := "simple_example"

def SIZE : ℚ := 0.3

/-- Modelled from the spec: `gdt_fatal` belongs to the gdt host library, which is not part of
the sources; the spec describes it as a fatal, unrecoverable error that terminates the
process. Nothing after it runs. -/
def gdt_fatal {α : Type} (tag msg : String) (w : World) : Result α :=
  .fatal tag msg w

/-- `LOG(args...)`, that is `gdt_log(LOG_NORMAL, TAG, args)`. -/
def LOG (format : String) (args : List LogArg) (w : World) : World :=
  w.call (.gdt_log TAG format args)

/-- The text `b ? "true" : "false"`. -/
def boolText (b : Bool) : String :=
  if b then "true" else "false"

/-- `ASSERT(COND)` inside function `fn`, followed by the rest `k` of that function. -/
def ASSERT {α : Type} (cond : Bool) (fn condText : String) (w : World)
    (k : World → Result α) : Result α :=
  if cond then k w
  else gdt_fatal TAG ("Assertion failed in " ++ fn ++ " (" ++ condText ++ ")") w

/-- Conversion of a `GLint` to `GLuint`. -/
def toGLuint (i : Int) : Nat := (i % 4294967296).toNat

/-! ## GPU setup -/

def compileShader (gl : GLES2) (shaderCode : String) (type : GLenum) (w : World) : Result Nat :=
  let shader := gl.glCreateShader w.calls
  let w := w.call (.glCreateShader type)
  let len : Int := shaderCode.length
  let w := w.call (.glShaderSource shader 1 shaderCode len)
  let w := w.call (.glCompileShader shader)
  let result := gl.glGetShaderiv w.calls
  let w := w.call (.glGetShaderiv shader .GL_COMPILE_STATUS)
  if result = GL_FALSE then gdt_fatal TAG "Error compiling shader" w
  else .ok shader w

def linkProgram (gl : GLES2) (w : World) : Result Nat :=
  (compileShader gl simpleVertexShader .GL_VERTEX_SHADER w).bind fun vertexShader w =>
  (compileShader gl redFragmentShader .GL_FRAGMENT_SHADER w).bind fun fragmentShader w =>
  let program := gl.glCreateProgram w.calls
  let w := w.call .glCreateProgram
  let w := w.call (.glAttachShader program vertexShader)
  let w := w.call (.glAttachShader program fragmentShader)
  let w := w.call (.glLinkProgram program)
  let result := gl.glGetProgramiv w.calls
  let w := w.call (.glGetProgramiv program .GL_LINK_STATUS)
  if result = GL_FALSE then gdt_fatal TAG "Error linking program" w
  else .ok program w

/-! ## Touch-drag model -/

def inside_the_square (x y : ℚ) (w : World) : Bool :=
  (x > w._x && x < (w._x + SIZE)) && (y > w._y && y < (w._y + SIZE))

def move (x y : ℚ) (w : World) : World :=
  { w with _x := x - SIZE / 2, _y := y - SIZE / 2 }

def on_touch (what : touch_type_t) (screenX screenY : Int) (w : World) : World :=
  let x : ℚ := ((2 * screenX : Int) : ℚ) / (w._width : ℚ) - 1
  let y : ℚ := ((2 * screenY : Int) : ℚ) / (w._height : ℚ) - 1
  if w.state ≠ 0 then
    match what with
    | .TOUCH_MOVE => move x y w
    | .TOUCH_UP => { w with state := 0 }
    | _ => w
  else
    match what with
    | .TOUCH_DOWN =>
      if inside_the_square x y w then move x y { w with state := 1 }
      else w
    | _ => w

/-! ## Lifecycle hooks -/

def gdt_hook_initialize (w : World) : Result Unit :=
  ASSERT (w._state = .STATE_NOT_INITIALIZED)
    "gdt_hook_initialize" "_state == STATE_NOT_INITIALIZED" w fun w =>
  let w := { w with _state := .STATE_INITIALIZED_NOT_VISIBLE }
  let w := LOG "initialize" [] w
  .ok () (w.call .gdt_set_callback_touch)

/-- The body of `if (newSurface) { ... }` in `gdt_hook_visible`. -/
def newSurfaceBlock (gl : GLES2) (w : World) : Result Unit :=
  (linkProgram gl w).bind fun program w =>
  let loc := gl.glGetUniformLocation w.calls
  let w := { w.call (.glGetUniformLocation program "offset") with _offsetUniform := toGLuint loc }
  let positionAttrib := toGLuint (gl.glGetAttribLocation w.calls)
  let w := w.call (.glGetAttribLocation program "position")
  let v : List ℚ := [0, SIZE, 0, 0, SIZE, SIZE, SIZE, 0]
  let vertexBuf := gl.glGenBuffers w.calls
  let w := w.call (.glGenBuffers 1)
  let w := w.call (.glBindBuffer .GL_ARRAY_BUFFER vertexBuf)
  let w := w.call (.glBufferData .GL_ARRAY_BUFFER 32 (.floats v) .GL_STATIC_DRAW)
  let i : List Nat := [0, 1, 2, 3]
  let indexBuf := gl.glGenBuffers w.calls
  let w := w.call (.glGenBuffers 1)
  let w := w.call (.glBindBuffer .GL_ELEMENT_ARRAY_BUFFER indexBuf)
  let w := w.call (.glBufferData .GL_ELEMENT_ARRAY_BUFFER 4 (.bytes i) .GL_STATIC_DRAW)
  let w := w.call (.glEnableVertexAttribArray positionAttrib)
  let w := w.call (.glVertexAttribPointer positionAttrib 2 .GL_FLOAT false 8 0)
  let w := w.call (.glUseProgram program)
  .ok () (w.call (.glClearColor 0.4 0.8 0.4 1))

def gdt_hook_visible (gl : GLES2) (newSurface : Bool) (width height : Int) (w : World) :
    Result Unit :=
  ASSERT (w._state = .STATE_INITIALIZED_NOT_VISIBLE)
    "gdt_hook_visible" "_state == STATE_INITIALIZED_NOT_VISIBLE" w fun w =>
  let w := { w with _state := .STATE_INITIALIZED_VISIBLE_NOT_ACTIVE }
  let w := LOG "visible, newSurface=%s, screen w=%d h=%d"
    [.str (boolText newSurface), .int width, .int height] w
  (if newSurface then newSurfaceBlock gl w else .ok () w).bind fun _ w =>
  let w := { w with _width := width }
  let w := { w with _height := height }
  .ok () (w.call (.glViewport 0 0 w._width w._height))

def gdt_hook_active (w : World) : Result Unit :=
  ASSERT (w._state = .STATE_INITIALIZED_VISIBLE_NOT_ACTIVE)
    "gdt_hook_active" "_state == STATE_INITIALIZED_VISIBLE_NOT_ACTIVE" w fun w =>
  let w := { w with _state := .STATE_INITIALIZED_VISIBLE_ACTIVE }
  .ok () (LOG "active" [] w)

def gdt_hook_inactive (w : World) : Result Unit :=
  ASSERT (w._state = .STATE_INITIALIZED_VISIBLE_ACTIVE)
    "gdt_hook_inactive" "_state == STATE_INITIALIZED_VISIBLE_ACTIVE" w fun w =>
  let w := { w with _state := .STATE_INITIALIZED_VISIBLE_NOT_ACTIVE }
  .ok () (LOG "inactive" [] w)

def gdt_hook_save_state (pf : Platform) (w : World) : Result Unit :=
  ASSERT (pf ≠ .android || w._state = .STATE_INITIALIZED_VISIBLE_NOT_ACTIVE)
    "gdt_hook_save_state" "_state == STATE_INITIALIZED_VISIBLE_NOT_ACTIVE" w fun w =>
  ASSERT (pf ≠ .ios || w._state = .STATE_INITIALIZED_NOT_VISIBLE)
    "gdt_hook_save_state" "_state == STATE_INITIALIZED_NOT_VISIBLE" w fun w =>
  .ok () (LOG "save_state" [] w)

def gdt_hook_hidden (w : World) : Result Unit :=
  ASSERT (w._state = .STATE_INITIALIZED_VISIBLE_NOT_ACTIVE)
    "gdt_hook_hidden" "_state == STATE_INITIALIZED_VISIBLE_NOT_ACTIVE" w fun w =>
  let w := { w with _state := .STATE_INITIALIZED_NOT_VISIBLE }
  .ok () (LOG "hidden" [] w)

def gdt_hook_render (w : World) : Result Unit :=
  ASSERT (w._state = .STATE_INITIALIZED_VISIBLE_NOT_ACTIVE
      || w._state = .STATE_INITIALIZED_VISIBLE_ACTIVE)
    "gdt_hook_render"
    "_state == STATE_INITIALIZED_VISIBLE_NOT_ACTIVE || _state == STATE_INITIALIZED_VISIBLE_ACTIVE"
    w fun w =>
  let w := w.call (.glClear .GL_COLOR_BUFFER_BIT)
  let w := w.call (.glUniform2f w._offsetUniform w._x w._y)
  .ok () (w.call (.glDrawElements .GL_TRIANGLE_STRIP 4 .GL_UNSIGNED_BYTE 0))

/-! ## The host: delivering hooks and touch events -/

/-- A call of one of the lifecycle hooks by the host, with its arguments. -/
inductive Hook where
  | init
  | visible (newSurface : Bool) (width height : Int)
  | active
  | inactive
  | save_state
  | hidden
  | render
  deriving DecidableEq

/-- An event the host delivers: a lifecycle hook, or a touch event for the callback that
`gdt_hook_initialize` registers. -/
inductive Event where
  | hook (h : Hook)
  | touch (what : touch_type_t) (screenX screenY : Int)
  deriving DecidableEq

/-- The host calls hook `h`. -/
def callHook (gl : GLES2) (pf : Platform) (h : Hook) (w : World) : Result Unit :=
  match h with
  | .init => gdt_hook_initialize w
  | .visible newSurface width height => gdt_hook_visible gl newSurface width height w
  | .active => gdt_hook_active w
  | .inactive => gdt_hook_inactive w
  | .save_state => gdt_hook_save_state pf w
  | .hidden => gdt_hook_hidden w
  | .render => gdt_hook_render w

/-- The host delivers one event. -/
def deliver (gl : GLES2) (pf : Platform) (e : Event) (w : World) : Result Unit :=
  match e with
  | .hook h => callHook gl pf h w
  | .touch what screenX screenY => .ok () (on_touch what screenX screenY w)

/-- The host delivers a sequence of events; the process ends at the first fatal error. -/
def run (gl : GLES2) (pf : Platform) : List Event → World → Result Unit
  | [], w => .ok () w
  | e :: es, w =>
    (deliver gl pf e w).bind fun _ w1 => run gl pf es w1

/-- Shader compilation and program linking succeed, whenever they are asked for. -/
def GLES2.Succeeds (gl : GLES2) : Prop :=
  (∀ cs, gl.glGetShaderiv cs ≠ GL_FALSE) ∧ (∀ cs, gl.glGetProgramiv cs ≠ GL_FALSE)

/-- A rendering collaborator for which every compilation and link succeeds. -/
def glOk : GLES2 :=
  { glCreateShader := fun cs => cs.length + 1
    glGetShaderiv := fun _ => 1
    glCreateProgram := fun cs => cs.length + 1
    glGetProgramiv := fun _ => 1
    glGetUniformLocation := fun _ => 0
    glGetAttribLocation := fun _ => 0
    glGenBuffers := fun cs => cs.length + 1 }

/-- A rendering collaborator for which every shader compilation fails. -/
def glBad : GLES2 :=
  { glOk with glGetShaderiv := fun _ => 0 }

/-! ## The transition table of the spec -/

/-- The transition table of the spec (section 4.1), following the spec's words: the next state
when hook `h` is invoked in state `s`, and `none` when the table does not list `s` for `h`.
The row of `saveState` is "platform-dependent"; its states are those the platform asserts. -/
def tableNext (pf : Platform) (s : state_t) (h : Hook) : Option state_t :=
  match h, s with
  | .init, .STATE_NOT_INITIALIZED => some .STATE_INITIALIZED_NOT_VISIBLE
  | .visible _ _ _, .STATE_INITIALIZED_NOT_VISIBLE => some .STATE_INITIALIZED_VISIBLE_NOT_ACTIVE
  | .active, .STATE_INITIALIZED_VISIBLE_NOT_ACTIVE => some .STATE_INITIALIZED_VISIBLE_ACTIVE
  | .inactive, .STATE_INITIALIZED_VISIBLE_ACTIVE => some .STATE_INITIALIZED_VISIBLE_NOT_ACTIVE
  | .hidden, .STATE_INITIALIZED_VISIBLE_NOT_ACTIVE => some .STATE_INITIALIZED_NOT_VISIBLE
  | .render, .STATE_INITIALIZED_VISIBLE_NOT_ACTIVE => some .STATE_INITIALIZED_VISIBLE_NOT_ACTIVE
  | .render, .STATE_INITIALIZED_VISIBLE_ACTIVE => some .STATE_INITIALIZED_VISIBLE_ACTIVE
  | .save_state, s =>
    match pf, s with
    | .android, .STATE_INITIALIZED_VISIBLE_NOT_ACTIVE => some s
    | .android, _ => none
    | .ios, .STATE_INITIALIZED_NOT_VISIBLE => some s
    | .ios, _ => none
    | .other, _ => some s
  | _, _ => none

/-- Whether a sequence of events follows the table from lifecycle state `s`: every hook is
invoked in a state the table lists for it. Touch events do not move the lifecycle state. -/
def followsTable (pf : Platform) : state_t → List Event → Bool
  | _, [] => true
  | s, .touch _ _ _ :: es => followsTable pf s es
  | s, .hook h :: es =>
    match tableNext pf s h with
    | some s1 => followsTable pf s1 es
    | none => false

/-! ## Observations on the recorded calls -/

/-- The calls that only the GPU resource-creation block of `gdt_hook_visible` issues (shader
compilation, program linking, buffer creation and upload, attribute binding, clear colour). -/
def isSetupCall : Call → Bool
  | .glCreateShader _ => true
  | .glShaderSource _ _ _ _ => true
  | .glCompileShader _ => true
  | .glGetShaderiv _ _ => true
  | .glCreateProgram => true
  | .glAttachShader _ _ => true
  | .glLinkProgram _ => true
  | .glGetProgramiv _ _ => true
  | .glGetUniformLocation _ _ => true
  | .glGetAttribLocation _ _ => true
  | .glGenBuffers _ => true
  | .glBindBuffer _ _ => true
  | .glBufferData _ _ _ _ => true
  | .glEnableVertexAttribArray _ => true
  | .glVertexAttribPointer _ _ _ _ _ _ => true
  | .glUseProgram _ => true
  | .glClearColor _ _ _ _ => true
  | _ => false

def isLinkProgram : Call → Bool
  | .glLinkProgram _ => true
  | _ => false

def isGenBuffers : Call → Bool
  | .glGenBuffers _ => true
  | _ => false

def isVertexAttribPointer : Call → Bool
  | .glVertexAttribPointer _ _ _ _ _ _ => true
  | _ => false

def isClearColor : Call → Bool
  | .glClearColor _ _ _ _ => true
  | _ => false

/-- How often the parts of the GPU resource-creation block have run: the numbers of
`glLinkProgram`, `glGenBuffers`, `glVertexAttribPointer` and `glClearColor` calls, and the
number of all calls that belong to the block. -/
def setupProfile (cs : List Call) : Nat × Nat × Nat × Nat × Nat :=
  (cs.countP isLinkProgram, cs.countP isGenBuffers, cs.countP isVertexAttribPointer,
    cs.countP isClearColor, cs.countP isSetupCall)

/-- The profile of `n` complete runs of the GPU resource-creation block. -/
def profileOfRuns (n : Nat) : Nat × Nat × Nat × Nat × Nat :=
  (n, 2 * n, n, n, 25 * n)

/-- The number of `visible` calls with `newSurface = true` in a sequence of events. -/
def newSurfaceCount : List Event → Nat
  | [] => 0
  | .hook (.visible true _ _) :: es => newSurfaceCount es + 1
  | _ :: es => newSurfaceCount es

/-- The arguments `(width, height)` of the most recent `visible` call of a sequence, if any. -/
def lastVisible : List Event → Option (Int × Int)
  | [] => none
  | .hook (.visible _ width height) :: es =>
    match lastVisible es with
    | some d => some d
    | none => some (width, height)
  | _ :: es => lastVisible es

/-- The documented valid sequence of the spec: `initialize`, `becomeVisible(true, W, H)`,
`becomeActive`, `render`, `becomeInactive`, `becomeHidden`. -/
def documentedSequence (W H : Int) : List Event :=
  [.hook .init, .hook (.visible true W H), .hook .active, .hook .render, .hook .inactive,
    .hook .hidden]

/-- Visibility toggles: for each pair `(w, h)` a `visible(false, w, h)` followed by `hidden`. -/
def visibilityToggles : List (Int × Int) → List Event
  | [] => []
  | (w, h) :: ds => .hook (.visible false w h) :: .hook .hidden :: visibilityToggles ds

/-- The calls one `gdt_hook_render` issues in world `w`. -/
def renderCalls (w : World) : List Call :=
  [.glClear .GL_COLOR_BUFFER_BIT, .glUniform2f w._offsetUniform w._x w._y,
    .glDrawElements .GL_TRIANGLE_STRIP 4 .GL_UNSIGNED_BYTE 0]

/-- The variables of the program other than `_offsetUniform`. -/
def World.vars (w : World) : ℚ × ℚ × Int × Int × state_t × Int :=
  (w._x, w._y, w._width, w._height, w._state, w.state)

/-- A run that was not ended by `gdt_fatal` and whose calls have setup profile `p`. -/
def OkWithProfile {α : Type} (p : Nat × Nat × Nat × Nat × Nat) (r : Result α) : Prop :=
  r.isFatal = false ∧ setupProfile r.world.calls = p

/-- The variables and the uniform location agree in two worlds. -/
def SameVars (w w1 : World) : Prop :=
  w1.vars = w.vars ∧ w1._offsetUniform = w._offsetUniform

/-! ## The touch-drag model of the spec -/

/-- The conversion of a screen coordinate to normalized device coordinates in the spec's words
(section 4.2, step 1): `2*screen/dim - 1`, in exact arithmetic. -/
def ndc (screen dim : Int) : ℚ :=
  2 * (screen : ℚ) / (dim : ℚ) - 1

/-- The point `(x, y)` lies strictly inside the square's box `(sx, sx+size) × (sy, sy+size)`. -/
def StrictlyInside (x y : ℚ) (w : World) : Prop :=
  w._x < x ∧ x < w._x + SIZE ∧ w._y < y ∧ y < w._y + SIZE

instance (x y : ℚ) (w : World) : Decidable (StrictlyInside x y w) := by
  unfold StrictlyInside
  infer_instance

/-- Steps 2 and 3 of `onTouch` in the spec's words (section 4.2), at the point `(x, y)` in
normalized device coordinates. Idle: a Down strictly inside the box starts a drag and
recentres the square; any other event is a no-op. Dragging: a Move recentres the square, an Up
ends the drag, any other event is a no-op. -/
def onTouchSpec (kind : touch_type_t) (x y : ℚ) (w : World) : World :=
  if w.state = 0 then
    if kind = .TOUCH_DOWN ∧ StrictlyInside x y w then
      { w with state := 1, _x := x - SIZE / 2, _y := y - SIZE / 2 }
    else w
  else
    match kind with
    | .TOUCH_MOVE => { w with _x := x - SIZE / 2, _y := y - SIZE / 2 }
    | .TOUCH_UP => { w with state := 0 }
    | .TOUCH_DOWN => w

/-- The stored viewport dimensions `(_width, _height)`. -/
def World.dims (w : World) : Int × Int :=
  (w._width, w._height)

/-- The square's position and the drag flag. -/
def World.drag (w : World) : ℚ × ℚ × Int :=
  (w._x, w._y, w.state)

/-- A screen of 800 x 600 with the square at its default position and no drag in progress. -/
def screen800x600 : World :=
  { World.init with _width := 800, _height := 600 }

theorem compileShader_vars (gl : GLES2) (code : String) (type : GLenum) (w : World) :
    (compileShader gl code type w).world.vars = w.vars ∧
    (compileShader gl code type w).world._offsetUniform = w._offsetUniform := by
  simp only [compileShader, World.call, gdt_fatal]
  split <;> exact ⟨rfl, rfl⟩

theorem Result.eq_ok {α : Type} (r : Result α) (h : r.isFatal = false) :
    ∃ v, r = .ok v r.world := by
  cases r with
  | ok v w => exact ⟨v, rfl⟩
  | fatal t m w => simp [Result.isFatal] at h

theorem Result.eq_ok_unit (r : Result Unit) (h : r.isFatal = false) : r = .ok () r.world := by
  obtain ⟨v, hv⟩ := r.eq_ok h
  exact hv

theorem setupProfile_append (cs ds : List Call) :
    setupProfile (cs ++ ds) = setupProfile cs + setupProfile ds := by
  simp [setupProfile, List.countP_append]

theorem compileShader_ok (gl : GLES2) (hgl : gl.Succeeds) (code : String) (type : GLenum)
    (w : World) :
    (compileShader gl code type w).isFatal = false ∧
    setupProfile (compileShader gl code type w).world.calls
      = setupProfile w.calls + (0, 0, 0, 0, 4) := by
  simp only [compileShader, World.call, gdt_fatal, if_neg (hgl.1 _)]
  refine ⟨rfl, ?_⟩
  simp [Result.world, setupProfile, List.countP_append, List.countP_cons, isLinkProgram,
    isGenBuffers, isVertexAttribPointer, isClearColor, isSetupCall]

theorem Result.bind_world {α β : Type} (P : World → Prop) (r : Result α)
    (k : α → World → Result β) (hr : P r.world) (hk : ∀ a w, P w → P (k a w).world) :
    P (r.bind k).world := by
  cases r with
  | ok v w => exact hk v w hr
  | fatal t m w => exact hr

theorem Result.bind_of_ok {α β : Type} (P : World → Prop) (Q : Result β → Prop) (r : Result α)
    (k : α → World → Result β) (hf : r.isFatal = false) (hr : P r.world)
    (hk : ∀ a w, P w → Q (k a w)) : Q (r.bind k) := by
  obtain ⟨v, hv⟩ := r.eq_ok hf
  rw [hv]
  exact hk v _ hr

theorem linkProgram_vars (gl : GLES2) (w : World) :
    (linkProgram gl w).world.vars = w.vars ∧
    (linkProgram gl w).world._offsetUniform = w._offsetUniform := by
  unfold linkProgram
  refine Result.bind_world (SameVars w) _ _ (compileShader_vars gl _ _ w) ?_
  intro a w1 h1
  refine Result.bind_world (SameVars w) _ _ ?_ ?_
  · have h2 := compileShader_vars gl redFragmentShader .GL_FRAGMENT_SHADER w1
    exact ⟨h2.1.trans h1.1, h2.2.trans h1.2⟩
  · intro b w2 h2
    simp only [World.call, gdt_fatal]
    split <;> exact h2

theorem linkProgram_ok (gl : GLES2) (hgl : gl.Succeeds) (w : World) :
    (linkProgram gl w).isFatal = false ∧
    setupProfile (linkProgram gl w).world.calls = setupProfile w.calls + (1, 0, 0, 0, 13) := by
  obtain ⟨hf1, hp1⟩ := compileShader_ok gl hgl simpleVertexShader .GL_VERTEX_SHADER w
  unfold linkProgram
  refine Result.bind_of_ok (fun u => setupProfile u.calls = setupProfile w.calls + (0, 0, 0, 0, 4))
    (OkWithProfile (setupProfile w.calls + (1, 0, 0, 0, 13))) _ _ hf1 hp1 ?_
  intro v w1 hw1
  obtain ⟨hf2, hp2⟩ := compileShader_ok gl hgl redFragmentShader .GL_FRAGMENT_SHADER w1
  refine Result.bind_of_ok (fun u => setupProfile u.calls = setupProfile w.calls + (0, 0, 0, 0, 8))
    (OkWithProfile (setupProfile w.calls + (1, 0, 0, 0, 13))) _ _ hf2 ?_ ?_
  · show setupProfile _ = _
    rw [hp2, hw1, add_assoc]
    rfl
  · intro f w2 hw2
    simp only [World.call, gdt_fatal, if_neg (hgl.2 _)]
    refine ⟨rfl, ?_⟩
    simp only [Result.world, setupProfile_append, hw2, add_assoc]
    rfl

theorem newSurfaceBlock_vars (gl : GLES2) (w : World) :
    (newSurfaceBlock gl w).world.vars = w.vars := by
  unfold newSurfaceBlock
  refine Result.bind_world (fun u => u.vars = w.vars) _ _ (linkProgram_vars gl w).1 ?_
  intro program w1 h1
  simp only [World.call, Result.world, World.vars] at h1 ⊢
  exact h1

theorem newSurfaceBlock_ok (gl : GLES2) (hgl : gl.Succeeds) (w : World) :
    (newSurfaceBlock gl w).isFatal = false ∧
    setupProfile (newSurfaceBlock gl w).world.calls = setupProfile w.calls + profileOfRuns 1 := by
  obtain ⟨hf1, hp1⟩ := linkProgram_ok gl hgl w
  unfold newSurfaceBlock
  refine Result.bind_of_ok
    (fun u => setupProfile u.calls = setupProfile w.calls + (1, 0, 0, 0, 13))
    (OkWithProfile (setupProfile w.calls + profileOfRuns 1)) _ _ hf1 hp1 ?_
  intro program w1 hw1
  refine ⟨rfl, ?_⟩
  simp only [Result.world, World.call, setupProfile_append, hw1, add_assoc]
  rfl

/-! ## Helper lemmas: the hooks -/

theorem ASSERT_true {α : Type} (cond : Bool) (fn condText : String) (w : World)
    (k : World → Result α) (h : cond = true) : ASSERT cond fn condText w k = k w := by
  simp [ASSERT, h]

theorem ASSERT_false {α : Type} (cond : Bool) (fn condText : String) (w : World)
    (k : World → Result α) (h : cond = false) :
    ASSERT cond fn condText w k
      = .fatal TAG ("Assertion failed in " ++ fn ++ " (" ++ condText ++ ")") w := by
  simp [ASSERT, h, gdt_fatal]

theorem gdt_hook_visible_vars (gl : GLES2) (newSurface : Bool) (width height : Int)
    (w : World) :
    (gdt_hook_visible gl newSurface width height w).world._x = w._x ∧
    (gdt_hook_visible gl newSurface width height w).world._y = w._y ∧
    (gdt_hook_visible gl newSurface width height w).world.state = w.state := by
  unfold gdt_hook_visible ASSERT
  split
  · dsimp only
    generalize hw0 : LOG "visible, newSurface=%s, screen w=%d h=%d"
      [.str (boolText newSurface), .int width, .int height]
      { w with _state := state_t.STATE_INITIALIZED_VISIBLE_NOT_ACTIVE } = w0
    have h0 : w0._x = w._x ∧ w0._y = w._y ∧ w0.state = w.state := by
      subst hw0
      exact ⟨rfl, rfl, rfl⟩
    refine Result.bind_world (fun u => u._x = w._x ∧ u._y = w._y ∧ u.state = w.state) _ _ ?_ ?_
    · split
      · have h := newSurfaceBlock_vars gl w0
        simp only [World.vars, Prod.mk.injEq] at h
        exact ⟨h.1.trans h0.1, h.2.1.trans h0.2.1, h.2.2.2.2.2.trans h0.2.2⟩
      · exact h0
    · intro a w1 h1
      exact h1
  · exact ⟨rfl, rfl, rfl⟩

theorem gdt_hook_visible_ok (gl : GLES2) (hgl : gl.Succeeds) (newSurface : Bool)
    (width height : Int) (w : World) (hs : w._state = .STATE_INITIALIZED_NOT_VISIBLE) :
    (gdt_hook_visible gl newSurface width height w).isFatal = false ∧
    (gdt_hook_visible gl newSurface width height w).world._state
      = .STATE_INITIALIZED_VISIBLE_NOT_ACTIVE ∧
    (gdt_hook_visible gl newSurface width height w).world._width = width ∧
    (gdt_hook_visible gl newSurface width height w).world._height = height ∧
    setupProfile (gdt_hook_visible gl newSurface width height w).world.calls
      = setupProfile w.calls + profileOfRuns (if newSurface then 1 else 0) := by
  unfold gdt_hook_visible
  rw [ASSERT_true _ _ _ _ _ (by simp [hs])]
  dsimp only
  generalize hw0 : LOG "visible, newSurface=%s, screen w=%d h=%d"
      [.str (boolText newSurface), .int width, .int height]
      { w with _state := state_t.STATE_INITIALIZED_VISIBLE_NOT_ACTIVE } = w0
  have h0 : w0._state = .STATE_INITIALIZED_VISIBLE_NOT_ACTIVE ∧
      setupProfile w0.calls = setupProfile w.calls := by
    subst hw0
    refine ⟨rfl, ?_⟩
    simp only [LOG, World.call, setupProfile_append]
    simp [setupProfile, List.countP_cons, isLinkProgram, isGenBuffers, isVertexAttribPointer,
      isClearColor, isSetupCall]
  have hb : (if newSurface then newSurfaceBlock gl w0 else Result.ok () w0).isFatal = false ∧
      ((if newSurface then newSurfaceBlock gl w0 else Result.ok () w0).world._state
          = .STATE_INITIALIZED_VISIBLE_NOT_ACTIVE ∧
      setupProfile (if newSurface then newSurfaceBlock gl w0 else Result.ok () w0).world.calls
        = setupProfile w.calls + profileOfRuns (if newSurface then 1 else 0)) := by
    cases newSurface with
    | true =>
      obtain ⟨hf, hp⟩ := newSurfaceBlock_ok gl hgl w0
      have hv := newSurfaceBlock_vars gl w0
      simp only [World.vars, Prod.mk.injEq] at hv
      refine ⟨hf, hv.2.2.2.2.1.trans h0.1, ?_⟩
      simp only [if_true]
      rw [hp, h0.2]
    | false =>
      refine ⟨rfl, h0.1, ?_⟩
      simp only [Bool.false_eq_true, if_false, Result.world, h0.2]
      rfl
  refine Result.bind_of_ok
    (fun u => u._state = .STATE_INITIALIZED_VISIBLE_NOT_ACTIVE ∧
      setupProfile u.calls = setupProfile w.calls + profileOfRuns (if newSurface then 1 else 0))
    (fun r => r.isFatal = false ∧
      r.world._state = .STATE_INITIALIZED_VISIBLE_NOT_ACTIVE ∧
      r.world._width = width ∧ r.world._height = height ∧
      setupProfile r.world.calls
        = setupProfile w.calls + profileOfRuns (if newSurface then 1 else 0)) _ _ hb.1 hb.2 ?_
  intro a w1 hw1
  refine ⟨rfl, hw1.1, rfl, rfl, ?_⟩
  simp only [Result.world, World.call, setupProfile_append, hw1.2]
  simp [setupProfile, List.countP_cons, isLinkProgram,
    isGenBuffers, isVertexAttribPointer, isClearColor, isSetupCall]

theorem glOk_succeeds : glOk.Succeeds := by
  constructor <;> intro cs <;> simp [glOk, GL_FALSE]

/-! ## C1: the lifecycle transition table -/

/-- C1: with shader compilation and linking succeeding, each state-changing hook called in the
state the table lists for it returns without a fatal error and leaves `_state` at the table's
next state: `initialize` takes NotInitialized to InitializedNotVisible, `visible` (with either
value of `newSurface` and any dimensions) takes InitializedNotVisible to VisibleNotActive,
`active` takes VisibleNotActive to VisibleActive, `inactive` takes VisibleActive to
VisibleNotActive, and `hidden` takes VisibleNotActive to InitializedNotVisible. -/
theorem lifecycle_transitions (gl : GLES2) (hgl : gl.Succeeds) (w : World) :
    (w._state = .STATE_NOT_INITIALIZED →
      ∃ w1, gdt_hook_initialize w = .ok () w1 ∧ w1._state = .STATE_INITIALIZED_NOT_VISIBLE) ∧
    (w._state = .STATE_INITIALIZED_NOT_VISIBLE → ∀ (newSurface : Bool) (width height : Int),
      ∃ w1, gdt_hook_visible gl newSurface width height w = .ok () w1 ∧
        w1._state = .STATE_INITIALIZED_VISIBLE_NOT_ACTIVE) ∧
    (w._state = .STATE_INITIALIZED_VISIBLE_NOT_ACTIVE →
      ∃ w1, gdt_hook_active w = .ok () w1 ∧ w1._state = .STATE_INITIALIZED_VISIBLE_ACTIVE) ∧
    (w._state = .STATE_INITIALIZED_VISIBLE_ACTIVE →
      ∃ w1, gdt_hook_inactive w = .ok () w1 ∧
        w1._state = .STATE_INITIALIZED_VISIBLE_NOT_ACTIVE) ∧
    (w._state = .STATE_INITIALIZED_VISIBLE_NOT_ACTIVE →
      ∃ w1, gdt_hook_hidden w = .ok () w1 ∧ w1._state = .STATE_INITIALIZED_NOT_VISIBLE) := by
  refine ⟨?_, ?_, ?_, ?_, ?_⟩
  · intro hs
    exact ⟨_, ASSERT_true _ _ _ _ _ (by simp [hs]), rfl⟩
  · intro hs newSurface width height
    obtain ⟨hf, hst, -⟩ := gdt_hook_visible_ok gl hgl newSurface width height w hs
    exact ⟨_, Result.eq_ok_unit _ hf, hst⟩
  · intro hs
    exact ⟨_, ASSERT_true _ _ _ _ _ (by simp [hs]), rfl⟩
  · intro hs
    exact ⟨_, ASSERT_true _ _ _ _ _ (by simp [hs]), rfl⟩
  · intro hs
    exact ⟨_, ASSERT_true _ _ _ _ _ (by simp [hs]), rfl⟩

/-- Witness for C1: from the start world, with a collaborator for which compilation and
linking succeed, `initialize` returns and leaves the state at InitializedNotVisible. -/
theorem lifecycle_transitions_witness :
    glOk.Succeeds ∧
    ∃ w1, gdt_hook_initialize World.init = .ok () w1 ∧
      w1._state = .STATE_INITIALIZED_NOT_VISIBLE :=
  ⟨glOk_succeeds, (lifecycle_transitions glOk glOk_succeeds World.init).1 rfl⟩

/-! ## C2: out-of-order hooks fail fast -/

/-- C2: for each of the hooks `initialize`, `visible`, `active`, `inactive`, `hidden` and
`render`, called in a lifecycle state the table does not list for it, the call ends in
`gdt_fatal` with the world exactly as it was before the call (so `_state`, `_width` and
`_height` are unchanged and no call to a collaborator has been issued); and with shader
compilation and linking succeeding, the hook ends in `gdt_fatal` only in those states. -/
theorem out_of_order_hook_fatal (gl : GLES2) (pf : Platform) (h : Hook) (w : World)
    (hh : h ≠ .save_state) :
    (tableNext pf w._state h = none → ∃ msg, callHook gl pf h w = .fatal TAG msg w) ∧
    (gl.Succeeds → (callHook gl pf h w).isFatal = true → tableNext pf w._state h = none) := by
  constructor
  · intro ht
    cases h with
    | save_state => exact absurd rfl hh
    | visible newSurface width height =>
      simp only [callHook]
      refine ⟨_, ASSERT_false _ _ _ _ _ ?_⟩
      cases hs : w._state <;> simp_all [tableNext]
    | init =>
      simp only [callHook]
      refine ⟨_, ASSERT_false _ _ _ _ _ ?_⟩
      cases hs : w._state <;> simp_all [tableNext]
    | active =>
      simp only [callHook]
      refine ⟨_, ASSERT_false _ _ _ _ _ ?_⟩
      cases hs : w._state <;> simp_all [tableNext]
    | inactive =>
      simp only [callHook]
      refine ⟨_, ASSERT_false _ _ _ _ _ ?_⟩
      cases hs : w._state <;> simp_all [tableNext]
    | hidden =>
      simp only [callHook]
      refine ⟨_, ASSERT_false _ _ _ _ _ ?_⟩
      cases hs : w._state <;> simp_all [tableNext]
    | render =>
      simp only [callHook]
      refine ⟨_, ASSERT_false _ _ _ _ _ ?_⟩
      cases hs : w._state <;> simp_all [tableNext]
  · intro hgl hf
    cases h with
    | save_state => exact absurd rfl hh
    | visible newSurface width height =>
      cases hs : w._state
      case STATE_INITIALIZED_NOT_VISIBLE =>
        have hok := (gdt_hook_visible_ok gl hgl newSurface width height w hs).1
        simp only [callHook] at hf
        rw [hok] at hf
        exact absurd hf (by decide)
      all_goals rfl
    | init =>
      cases hs : w._state
      case STATE_NOT_INITIALIZED =>
        simp [callHook, gdt_hook_initialize, ASSERT, hs, Result.isFatal] at hf
      all_goals rfl
    | active =>
      cases hs : w._state
      case STATE_INITIALIZED_VISIBLE_NOT_ACTIVE =>
        simp [callHook, gdt_hook_active, ASSERT, hs, Result.isFatal] at hf
      all_goals rfl
    | inactive =>
      cases hs : w._state
      case STATE_INITIALIZED_VISIBLE_ACTIVE =>
        simp [callHook, gdt_hook_inactive, ASSERT, hs, Result.isFatal] at hf
      all_goals rfl
    | hidden =>
      cases hs : w._state
      case STATE_INITIALIZED_VISIBLE_NOT_ACTIVE =>
        simp [callHook, gdt_hook_hidden, ASSERT, hs, Result.isFatal] at hf
      all_goals rfl
    | render =>
      cases hs : w._state
      case STATE_INITIALIZED_VISIBLE_NOT_ACTIVE =>
        simp [callHook, gdt_hook_render, ASSERT, hs, Result.isFatal] at hf
      case STATE_INITIALIZED_VISIBLE_ACTIVE =>
        simp [callHook, gdt_hook_render, ASSERT, hs, Result.isFatal] at hf
      all_goals rfl

/-- Witness for C2: `render` before `initialize` ends in `gdt_fatal` with the start world
untouched, and `initialize` in the start world does not end in `gdt_fatal`. -/
theorem out_of_order_hook_fatal_witness :
    Hook.render ≠ Hook.save_state ∧
    (∃ msg, callHook glOk .android .render World.init = .fatal TAG msg World.init) ∧
    (callHook glOk .android .init World.init).isFatal = false :=
  ⟨by decide,
    (out_of_order_hook_fatal glOk .android .render World.init (by decide)).1 rfl,
    rfl⟩

/-! ## C3: GPU setup happens once per new surface -/

theorem on_touch_frame (what : touch_type_t) (screenX screenY : Int) (w : World) :
    (on_touch what screenX screenY w)._state = w._state ∧
    (on_touch what screenX screenY w)._width = w._width ∧
    (on_touch what screenX screenY w)._height = w._height ∧
    (on_touch what screenX screenY w)._offsetUniform = w._offsetUniform ∧
    (on_touch what screenX screenY w).calls = w.calls := by
  unfold on_touch
  dsimp only
  split
  · split <;> exact ⟨rfl, rfl, rfl, rfl, rfl⟩
  · split
    · split <;> exact ⟨rfl, rfl, rfl, rfl, rfl⟩
    · exact ⟨rfl, rfl, rfl, rfl, rfl⟩

theorem profileOfRuns_zero : profileOfRuns 0 = 0 := rfl

theorem callHook_ok (gl : GLES2) (hgl : gl.Succeeds) (pf : Platform) (h : Hook) (w : World)
    (s1 : state_t) (ht : tableNext pf w._state h = some s1) :
    (callHook gl pf h w).isFatal = false ∧
    (callHook gl pf h w).world._state = s1 ∧
    setupProfile (callHook gl pf h w).world.calls
      = setupProfile w.calls + profileOfRuns (newSurfaceCount [.hook h]) := by
  cases h with
  | visible newSurface width height =>
    have hs : w._state = .STATE_INITIALIZED_NOT_VISIBLE := by
      cases hs : w._state <;> simp_all [tableNext]
    have hs1 : s1 = .STATE_INITIALIZED_VISIBLE_NOT_ACTIVE := by
      simp_all [tableNext]
    obtain ⟨hf, hst, -, -, hp⟩ := gdt_hook_visible_ok gl hgl newSurface width height w hs
    refine ⟨hf, hst.trans hs1.symm, ?_⟩
    simp only [callHook]
    rw [hp]
    cases newSurface <;> rfl
  | init =>
    cases hs : w._state <;> simp_all [tableNext]
    subst ht
    simp [callHook, gdt_hook_initialize, ASSERT, hs, Result.isFatal, Result.world, LOG,
      World.call, setupProfile, List.countP_append, List.countP_cons, isLinkProgram,
      isGenBuffers, isVertexAttribPointer, isClearColor, isSetupCall, newSurfaceCount, profileOfRuns_zero]
  | active =>
    cases hs : w._state <;> simp_all [tableNext]
    subst ht
    simp [callHook, gdt_hook_active, ASSERT, hs, Result.isFatal, Result.world, LOG,
      World.call, setupProfile, List.countP_append, List.countP_cons, isLinkProgram,
      isGenBuffers, isVertexAttribPointer, isClearColor, isSetupCall, newSurfaceCount, profileOfRuns_zero]
  | inactive =>
    cases hs : w._state <;> simp_all [tableNext]
    subst ht
    simp [callHook, gdt_hook_inactive, ASSERT, hs, Result.isFatal, Result.world, LOG,
      World.call, setupProfile, List.countP_append, List.countP_cons, isLinkProgram,
      isGenBuffers, isVertexAttribPointer, isClearColor, isSetupCall, newSurfaceCount, profileOfRuns_zero]
  | hidden =>
    cases hs : w._state <;> simp_all [tableNext]
    subst ht
    simp [callHook, gdt_hook_hidden, ASSERT, hs, Result.isFatal, Result.world, LOG,
      World.call, setupProfile, List.countP_append, List.countP_cons, isLinkProgram,
      isGenBuffers, isVertexAttribPointer, isClearColor, isSetupCall, newSurfaceCount, profileOfRuns_zero]
  | render =>
    cases hs : w._state <;> simp_all [tableNext]
    all_goals subst ht
    all_goals simp [callHook, gdt_hook_render, ASSERT, hs, Result.isFatal, Result.world,
      World.call, setupProfile, List.countP_append, List.countP_cons, isLinkProgram,
      isGenBuffers, isVertexAttribPointer, isClearColor, isSetupCall, newSurfaceCount, profileOfRuns_zero]
  | save_state =>
    cases hs : w._state <;> cases pf <;> simp_all [tableNext]
    all_goals subst ht
    all_goals simp [callHook, gdt_hook_save_state, ASSERT, hs, Result.isFatal, Result.world,
      LOG, World.call, setupProfile, List.countP_append, List.countP_cons, isLinkProgram,
      isGenBuffers, isVertexAttribPointer, isClearColor, isSetupCall, newSurfaceCount,
      profileOfRuns_zero]

theorem deliver_ok (gl : GLES2) (hgl : gl.Succeeds) (pf : Platform) (e : Event) (es : List Event)
    (w : World) (hft : followsTable pf w._state (e :: es) = true) :
    (deliver gl pf e w).isFatal = false ∧
    followsTable pf (deliver gl pf e w).world._state es = true ∧
    setupProfile (deliver gl pf e w).world.calls
      = setupProfile w.calls + profileOfRuns (newSurfaceCount [e]) := by
  cases e with
  | touch what screenX screenY =>
    obtain ⟨h1, -, -, -, h5⟩ := on_touch_frame what screenX screenY w
    simp only [followsTable] at hft
    refine ⟨rfl, ?_, ?_⟩
    · simp only [deliver, Result.world, h1]
      exact hft
    · simp only [deliver, Result.world, h5]
      rfl
  | hook h =>
    simp only [followsTable] at hft
    cases ht : tableNext pf w._state h with
    | none => simp [ht] at hft
    | some s1 =>
      simp only [ht] at hft
      obtain ⟨hf, hst, hp⟩ := callHook_ok gl hgl pf h w s1 ht
      refine ⟨hf, ?_, hp⟩
      simp only [deliver, hst]
      exact hft

theorem newSurfaceCount_cons (e : Event) (es : List Event) :
    newSurfaceCount (e :: es) = newSurfaceCount [e] + newSurfaceCount es := by
  cases e with
  | touch what screenX screenY => simp [newSurfaceCount]
  | hook h =>
    cases h with
    | visible newSurface width height =>
      cases newSurface <;> simp [newSurfaceCount, Nat.add_comm]
    | _ => simp [newSurfaceCount]

theorem profileOfRuns_add (m n : Nat) :
    profileOfRuns (m + n) = profileOfRuns m + profileOfRuns n := by
  simp [profileOfRuns, Nat.mul_add]

theorem run_ok (gl : GLES2) (hgl : gl.Succeeds) (pf : Platform) (es : List Event) :
    ∀ w : World, followsTable pf w._state es = true →
      (run gl pf es w).isFatal = false ∧
      setupProfile (run gl pf es w).world.calls
        = setupProfile w.calls + profileOfRuns (newSurfaceCount es) := by
  induction es with
  | nil =>
    intro w _
    exact ⟨rfl, by simp [run, Result.world, newSurfaceCount, profileOfRuns_zero]⟩
  | cons e es ih =>
    intro w hft
    obtain ⟨hf, hft1, hp⟩ := deliver_ok gl hgl pf e es w hft
    unfold run
    refine Result.bind_of_ok
      (fun u => followsTable pf u._state es = true ∧
        setupProfile u.calls = setupProfile w.calls + profileOfRuns (newSurfaceCount [e]))
      (fun r => r.isFatal = false ∧ setupProfile r.world.calls
        = setupProfile w.calls + profileOfRuns (newSurfaceCount (e :: es))) _ _ hf ⟨hft1, hp⟩ ?_
    intro a w1 hw1
    obtain ⟨hf2, hp2⟩ := ih w1 hw1.1
    refine ⟨hf2, ?_⟩
    rw [hp2, hw1.2, newSurfaceCount_cons e es, profileOfRuns_add, add_assoc]

theorem callHook_no_setup (gl : GLES2) (pf : Platform) (h : Hook) (w : World)
    (hh : ∀ width height, h ≠ .visible true width height) :
    setupProfile (callHook gl pf h w).world.calls = setupProfile w.calls := by
  cases h with
  | visible newSurface width height =>
    cases newSurface with
    | true => exact absurd rfl (hh width height)
    | false =>
      simp only [callHook, gdt_hook_visible, ASSERT]
      split
      · simp [Result.bind, Result.world, LOG, World.call, setupProfile, List.countP_append,
          List.countP_cons, isLinkProgram, isGenBuffers, isVertexAttribPointer, isClearColor,
          isSetupCall]
      · rfl
  | init =>
    simp only [callHook, gdt_hook_initialize, ASSERT]
    split
    · simp [Result.world, LOG, World.call, setupProfile, List.countP_append,
        List.countP_cons, isLinkProgram, isGenBuffers, isVertexAttribPointer, isClearColor,
        isSetupCall]
    · rfl
  | active =>
    simp only [callHook, gdt_hook_active, ASSERT]
    split
    · simp [Result.world, LOG, World.call, setupProfile, List.countP_append,
        List.countP_cons, isLinkProgram, isGenBuffers, isVertexAttribPointer, isClearColor,
        isSetupCall]
    · rfl
  | inactive =>
    simp only [callHook, gdt_hook_inactive, ASSERT]
    split
    · simp [Result.world, LOG, World.call, setupProfile, List.countP_append,
        List.countP_cons, isLinkProgram, isGenBuffers, isVertexAttribPointer, isClearColor,
        isSetupCall]
    · rfl
  | hidden =>
    simp only [callHook, gdt_hook_hidden, ASSERT]
    split
    · simp [Result.world, LOG, World.call, setupProfile, List.countP_append,
        List.countP_cons, isLinkProgram, isGenBuffers, isVertexAttribPointer, isClearColor,
        isSetupCall]
    · rfl
  | render =>
    simp only [callHook, gdt_hook_render, ASSERT]
    split
    · simp [Result.world, World.call, setupProfile, List.countP_append,
        List.countP_cons, isLinkProgram, isGenBuffers, isVertexAttribPointer, isClearColor,
        isSetupCall]
    · rfl
  | save_state =>
    simp only [callHook, gdt_hook_save_state, ASSERT]
    split
    · split
      · simp [Result.world, LOG, World.call, setupProfile, List.countP_append,
          List.countP_cons, isLinkProgram, isGenBuffers, isVertexAttribPointer, isClearColor,
          isSetupCall]
      · rfl
    · rfl

theorem followsTable_toggles (pf : Platform) (ds : List (Int × Int)) :
    followsTable pf .STATE_INITIALIZED_NOT_VISIBLE (visibilityToggles ds) = true := by
  induction ds with
  | nil => rfl
  | cons d ds ih =>
    obtain ⟨a, b⟩ := d
    simpa [visibilityToggles, followsTable, tableNext] using ih

theorem newSurfaceCount_toggles (ds : List (Int × Int)) :
    newSurfaceCount (visibilityToggles ds) = 0 := by
  induction ds with
  | nil => rfl
  | cons d ds ih =>
    obtain ⟨a, b⟩ := d
    simpa [visibilityToggles, newSurfaceCount] using ih

/-- C3: with shader compilation and linking succeeding, every event sequence that follows the
transition table from a world in NotInitialized runs without a fatal error, and the GPU
resource-creation block has then run exactly as often as `visible` was called with
`newSurface = true` (one `glLinkProgram`, two `glGenBuffers`, one `glVertexAttribPointer`, one
`glClearColor` and 25 setup calls in all per run of the block). A hook call other than
`visible(true, ..)` issues no setup call, whatever the state. In particular the documented
sequence followed by any number of `visible(false, ..)`/`hidden` toggles runs the block exactly
once. -/
theorem gpu_setup_once_per_new_surface (gl : GLES2) (pf : Platform) (hgl : gl.Succeeds) :
    (∀ (w : World) (es : List Event), w._state = .STATE_NOT_INITIALIZED →
      followsTable pf .STATE_NOT_INITIALIZED es = true →
      (run gl pf es w).isFatal = false ∧
      setupProfile (run gl pf es w).world.calls
        = setupProfile w.calls + profileOfRuns (newSurfaceCount es)) ∧
    (∀ (h : Hook) (w : World), (∀ width height, h ≠ .visible true width height) →
      setupProfile (callHook gl pf h w).world.calls = setupProfile w.calls) ∧
    (∀ (W H : Int) (ds : List (Int × Int)),
      (run gl pf (documentedSequence W H ++ visibilityToggles ds) World.init).isFatal = false ∧
      setupProfile
          (run gl pf (documentedSequence W H ++ visibilityToggles ds) World.init).world.calls
        = profileOfRuns 1) := by
  refine ⟨?_, ?_, ?_⟩
  · intro w es hs hft
    exact run_ok gl hgl pf es w (by rw [hs]; exact hft)
  · intro h w hh
    exact callHook_no_setup gl pf h w hh
  · intro W H ds
    have hft : followsTable pf World.init._state
        (documentedSequence W H ++ visibilityToggles ds) = true := by
      simpa [documentedSequence, followsTable, tableNext, World.init]
        using followsTable_toggles pf ds
    have hn : newSurfaceCount (documentedSequence W H ++ visibilityToggles ds) = 1 := by
      simpa [documentedSequence, newSurfaceCount] using newSurfaceCount_toggles ds
    obtain ⟨hf, hp⟩ := run_ok gl hgl pf _ World.init hft
    refine ⟨hf, ?_⟩
    rw [hp, hn]
    simp [World.init, setupProfile]

/-- Witness for C3: with compilation and linking succeeding, the documented sequence on an
800 x 600 screen followed by two visibility toggles runs without a fatal error and runs the
GPU resource-creation block once. -/
theorem gpu_setup_once_per_new_surface_witness :
    glOk.Succeeds ∧
    (run glOk .android (documentedSequence 800 600 ++ visibilityToggles [(800, 600), (600, 800)])
      World.init).isFatal = false ∧
    setupProfile (run glOk .android
      (documentedSequence 800 600 ++ visibilityToggles [(800, 600), (600, 800)])
      World.init).world.calls = profileOfRuns 1 :=
  ⟨glOk_succeeds,
    (gpu_setup_once_per_new_surface glOk .android glOk_succeeds).2.2 800 600
      [(800, 600), (600, 800)]⟩

/-! ## The touch-drag model -/

theorem inside_the_square_iff (x y : ℚ) (w : World) :
    inside_the_square x y w = true ↔ StrictlyInside x y w := by
  simp [inside_the_square, StrictlyInside, and_assoc]

theorem on_touch_eq_spec (what : touch_type_t) (screenX screenY : Int) (w : World) :
    on_touch what screenX screenY w
      = onTouchSpec what (ndc screenX w._width) (ndc screenY w._height) w := by
  have hx : (((2 * screenX : Int) : ℚ)) / (w._width : ℚ) - 1 = ndc screenX w._width := by
    simp [ndc]
  have hy : (((2 * screenY : Int) : ℚ)) / (w._height : ℚ) - 1 = ndc screenY w._height := by
    simp [ndc]
  unfold on_touch onTouchSpec
  simp only [hx, hy]
  by_cases hs : w.state = 0
  · cases what <;> simp [hs, inside_the_square_iff, move]
  · cases what <;> simp [hs, move]

/-! ## C4: transitions of the drag flag -/

theorem callHook_frame (gl : GLES2) (pf : Platform) (h : Hook) (w : World) :
    (callHook gl pf h w).world.drag = w.drag ∧
    ((∀ newSurface width height, h ≠ .visible newSurface width height) →
      (callHook gl pf h w).world.dims = w.dims) := by
  cases h with
  | visible newSurface width height =>
    obtain ⟨hx, hy, hs⟩ := gdt_hook_visible_vars gl newSurface width height w
    refine ⟨?_, fun hh => absurd rfl (hh newSurface width height)⟩
    simp only [callHook, World.drag, hx, hy, hs]
  | init =>
    simp only [callHook, gdt_hook_initialize, ASSERT]
    split <;> exact ⟨rfl, fun _ => rfl⟩
  | active =>
    simp only [callHook, gdt_hook_active, ASSERT]
    split <;> exact ⟨rfl, fun _ => rfl⟩
  | inactive =>
    simp only [callHook, gdt_hook_inactive, ASSERT]
    split <;> exact ⟨rfl, fun _ => rfl⟩
  | hidden =>
    simp only [callHook, gdt_hook_hidden, ASSERT]
    split <;> exact ⟨rfl, fun _ => rfl⟩
  | render =>
    simp only [callHook, gdt_hook_render, ASSERT]
    split <;> exact ⟨rfl, fun _ => rfl⟩
  | save_state =>
    simp only [callHook, gdt_hook_save_state, ASSERT]
    split
    · split <;> exact ⟨rfl, fun _ => rfl⟩
    · exact ⟨rfl, fun _ => rfl⟩

theorem lastVisible_cons (e : Event) (es : List Event) (d : Int × Int) :
    (lastVisible (e :: es)).getD d = (lastVisible es).getD ((lastVisible [e]).getD d) := by
  cases e with
  | touch what screenX screenY => simp [lastVisible]
  | hook h =>
    cases h with
    | visible newSurface width height =>
      cases hl : lastVisible es <;> simp [lastVisible, hl]
    | _ => simp [lastVisible]

theorem Result.of_bind_ok {α β : Type} (r : Result α) (k : α → World → Result β)
    (h : (r.bind k).isFatal = false) : ∃ v w1, r = .ok v w1 ∧ r.bind k = k v w1 := by
  cases r with
  | ok v w1 => exact ⟨v, w1, rfl, rfl⟩
  | fatal t m w1 => simp [Result.bind, Result.isFatal] at h

theorem gdt_hook_visible_dims (gl : GLES2) (newSurface : Bool) (width height : Int) (w : World)
    (hf : (gdt_hook_visible gl newSurface width height w).isFatal = false) :
    (gdt_hook_visible gl newSurface width height w).world._width = width ∧
    (gdt_hook_visible gl newSurface width height w).world._height = height := by
  unfold gdt_hook_visible at hf ⊢
  by_cases hc : w._state = .STATE_INITIALIZED_NOT_VISIBLE
  · rw [ASSERT_true _ _ _ _ _ (by simp [hc])] at hf ⊢
    dsimp only at hf ⊢
    obtain ⟨v, w1, -, hb⟩ := Result.of_bind_ok _ _ hf
    rw [hb]
    exact ⟨rfl, rfl⟩
  · rw [ASSERT_false _ _ _ _ _ (by simp [hc])] at hf
    simp [Result.isFatal] at hf

theorem callHook_dims (gl : GLES2) (pf : Platform) (h : Hook) (w : World)
    (hf : (callHook gl pf h w).isFatal = false) :
    (callHook gl pf h w).world.dims = (lastVisible [.hook h]).getD w.dims := by
  cases h with
  | visible newSurface width height =>
    obtain ⟨hw, hh⟩ := gdt_hook_visible_dims gl newSurface width height w hf
    simp only [callHook, World.dims, hw, hh]
    rfl
  | init => exact (callHook_frame gl pf _ w).2 (fun _ _ _ hc => by cases hc)
  | active => exact (callHook_frame gl pf _ w).2 (fun _ _ _ hc => by cases hc)
  | inactive => exact (callHook_frame gl pf _ w).2 (fun _ _ _ hc => by cases hc)
  | hidden => exact (callHook_frame gl pf _ w).2 (fun _ _ _ hc => by cases hc)
  | render => exact (callHook_frame gl pf _ w).2 (fun _ _ _ hc => by cases hc)
  | save_state => exact (callHook_frame gl pf _ w).2 (fun _ _ _ hc => by cases hc)

theorem run_dims (gl : GLES2) (pf : Platform) (es : List Event) :
    ∀ w : World, (run gl pf es w).isFatal = false →
      (run gl pf es w).world.dims = (lastVisible es).getD w.dims := by
  induction es with
  | nil =>
    intro w _
    rfl
  | cons e es ih =>
    intro w hf
    unfold run at hf ⊢
    obtain ⟨v, w1, hd, hb⟩ := Result.of_bind_ok _ _ hf
    rw [hb] at hf ⊢
    have hd1 : w1.dims = (lastVisible [e]).getD w.dims := by
      cases e with
      | touch what screenX screenY =>
        obtain ⟨-, h2, h3, -, -⟩ := on_touch_frame what screenX screenY w
        simp only [deliver, Result.ok.injEq] at hd
        rw [← hd.2]
        simp [World.dims, h2, h3, lastVisible]
      | hook h =>
        have hfh : (callHook gl pf h w).isFatal = false := by
          simp only [deliver] at hd
          rw [hd]
          rfl
        have hdh := callHook_dims gl pf h w hfh
        simp only [deliver] at hd
        rw [hd] at hdh
        exact hdh
    rw [ih w1 hf, hd1]
    exact (lastVisible_cons e es w.dims).symm

/-- C6: after any event sequence (hooks interleaved with touch events) that contains a
`visible` call and has run without a fatal error, which is the case for every sequence that
follows the transition table when shader compilation and linking succeed, `_width` and
`_height` equal the arguments `(W, H)` of the most recent `visible` call, whatever its
`newSurface`, and, `W` and `H` being positive, the next `on_touch` performs its hit test and
repositioning at the point `(2*screenX/W - 1, 2*screenY/H - 1)` in exact arithmetic. -/
theorem ndc_uses_latest_viewport (gl : GLES2) (pf : Platform) (es : List Event) (w0 : World)
    (W H : Int) (hlv : lastVisible es = some (W, H)) :
    (gl.Succeeds → followsTable pf w0._state es = true → (run gl pf es w0).isFatal = false) ∧
    ((run gl pf es w0).isFatal = false →
      (run gl pf es w0).world._width = W ∧
      (run gl pf es w0).world._height = H ∧
      (0 < W → 0 < H → ∀ (what : touch_type_t) (screenX screenY : Int),
        on_touch what screenX screenY (run gl pf es w0).world
          = onTouchSpec what (2 * (screenX : ℚ) / (W : ℚ) - 1)
              (2 * (screenY : ℚ) / (H : ℚ) - 1) (run gl pf es w0).world)) := by
  refine ⟨fun hgl hft => (run_ok gl hgl pf es w0 hft).1, ?_⟩
  intro hf
  have hd := run_dims gl pf es w0 hf
  rw [hlv] at hd
  simp only [World.dims, Option.getD_some, Prod.mk.injEq] at hd
  refine ⟨hd.1, hd.2, ?_⟩
  intro _ _ what screenX screenY
  rw [on_touch_eq_spec, hd.1, hd.2]
  rfl

/-- Witness for C6: after the documented sequence on an 800 x 600 screen and a visibility
toggle with a 600 x 800 screen, no fatal error has occurred, the stored dimensions are 600 and
800, and a Down at pixel (150, 600) is handled at the point `(2*150/600 - 1, 2*600/800 - 1)`. -/
theorem ndc_uses_latest_viewport_witness :
    lastVisible (documentedSequence 800 600 ++ [.hook (.visible false 600 800)])
      = some (600, 800) ∧
    (run glOk .android (documentedSequence 800 600 ++ [.hook (.visible false 600 800)])
      World.init).isFatal = false ∧
    (run glOk .android (documentedSequence 800 600 ++ [.hook (.visible false 600 800)])
      World.init).world._width = 600 ∧
    (run glOk .android (documentedSequence 800 600 ++ [.hook (.visible false 600 800)])
      World.init).world._height = 800 ∧
    on_touch .TOUCH_DOWN 150 600
        (run glOk .android (documentedSequence 800 600 ++ [.hook (.visible false 600 800)])
          World.init).world
      = onTouchSpec .TOUCH_DOWN (2 * ((150 : Int) : ℚ) / ((600 : Int) : ℚ) - 1)
          (2 * ((600 : Int) : ℚ) / ((800 : Int) : ℚ) - 1)
          (run glOk .android (documentedSequence 800 600 ++ [.hook (.visible false 600 800)])
            World.init).world := by
  have hft : followsTable .android World.init._state
      (documentedSequence 800 600 ++ [.hook (.visible false 600 800)]) = true := by decide
  have hlv : lastVisible (documentedSequence 800 600 ++ [.hook (.visible false 600 800)])
      = some (600, 800) := by decide
  have h := ndc_uses_latest_viewport glOk .android
    (documentedSequence 800 600 ++ [.hook (.visible false 600 800)]) World.init 600 800 hlv
  have hf := h.1 glOk_succeeds hft
  exact ⟨hlv, hf, (h.2 hf).1, (h.2 hf).2.1,
    (h.2 hf).2.2 (by decide) (by decide) .TOUCH_DOWN 150 600⟩

/-! ## C7: render is idempotent on the program state -/

theorem gdt_hook_render_ok (w : World)
    (hs : w._state = .STATE_INITIALIZED_VISIBLE_NOT_ACTIVE ∨
      w._state = .STATE_INITIALIZED_VISIBLE_ACTIVE) :
    gdt_hook_render w = .ok () { w with calls := w.calls ++ renderCalls w } := by
  unfold gdt_hook_render
  rw [ASSERT_true _ _ _ _ _ (by rcases hs with hs | hs <;> simp [hs])]
  simp [World.call, renderCalls]

/-- C7: in VisibleNotActive and in VisibleActive, `render` returns without a fatal error, leaves
every program variable (`_state`, `_x`, `_y`, the drag flag, `_width`, `_height`) unchanged,
and issues `glClear`, `glUniform2f` with the current square position `(_x, _y)` as the offset,
and `glDrawElements`; hence any number of consecutive `render` calls issue that same triple of
calls each time and leave the program variables unchanged. -/
theorem render_idempotent (gl : GLES2) (pf : Platform) (w : World)
    (hs : w._state = .STATE_INITIALIZED_VISIBLE_NOT_ACTIVE ∨
      w._state = .STATE_INITIALIZED_VISIBLE_ACTIVE) :
    gdt_hook_render w = .ok ()
      { w with calls := w.calls ++
          [.glClear .GL_COLOR_BUFFER_BIT, .glUniform2f w._offsetUniform w._x w._y,
            .glDrawElements .GL_TRIANGLE_STRIP 4 .GL_UNSIGNED_BYTE 0] } ∧
    ∀ n : Nat, run gl pf (List.replicate n (.hook .render)) w = .ok ()
      { w with calls := w.calls ++ (List.replicate n
          [.glClear .GL_COLOR_BUFFER_BIT, .glUniform2f w._offsetUniform w._x w._y,
            .glDrawElements .GL_TRIANGLE_STRIP 4 .GL_UNSIGNED_BYTE 0]).flatten } := by
  refine ⟨gdt_hook_render_ok w hs, ?_⟩
  intro n
  induction n generalizing w with
  | zero => simp [run]
  | succ n ih =>
    have h1 := gdt_hook_render_ok w hs
    have h2 := ih { w with calls := w.calls ++ renderCalls w } hs
    simp only [List.replicate_succ, run, deliver, callHook, h1, Result.bind]
    rw [h2]
    simp [renderCalls]

/-- Witness for C7: in a VisibleActive world on the 800 x 600 screen, `render` passes the
default position (-0.5, 0.5) as the offset. -/
theorem render_idempotent_witness :
    gdt_hook_render { screen800x600 with _state := .STATE_INITIALIZED_VISIBLE_ACTIVE }
      = .ok () { screen800x600 with
          _state := .STATE_INITIALIZED_VISIBLE_ACTIVE
          calls := [.glClear .GL_COLOR_BUFFER_BIT, .glUniform2f 0 (-0.5) 0.5,
            .glDrawElements .GL_TRIANGLE_STRIP 4 .GL_UNSIGNED_BYTE 0] } :=
  (render_idempotent glOk .android
    { screen800x600 with _state := .STATE_INITIALIZED_VISIBLE_ACTIVE } (Or.inr rfl)).1

/-! ## C9: separation of the two state components -/

theorem run_hooks_drag (gl : GLES2) (pf : Platform) (hs : List Hook) :
    ∀ w : World, (run gl pf (hs.map .hook) w).world.drag = w.drag := by
  induction hs with
  | nil =>
    intro w
    rfl
  | cons h hs ih =>
    intro w
    simp only [List.map_cons, run, deliver]
    refine Result.bind_world (fun u => u.drag = w.drag) _ _ (callHook_frame gl pf h w).1 ?_
    intro a w1 h1
    show (run gl pf (hs.map .hook) w1).world.drag = w.drag
    rw [ih w1, h1]

/-- C9: `on_touch` never changes `_state`, `_width` or `_height`; no lifecycle hook
(`initialize`, `visible`, `active`, `inactive`, `save_state`, `hidden`, `render`), whether it
returns or ends in `gdt_fatal`, changes the square's position or the drag flag, so they are the
same after any sequence of hook calls, in particular hidden/visible cycles; and `save_state`
changes no program variable at all. -/
theorem state_components_separate (gl : GLES2) (pf : Platform) :
    (∀ (what : touch_type_t) (screenX screenY : Int) (w : World),
      (on_touch what screenX screenY w)._state = w._state ∧
      (on_touch what screenX screenY w)._width = w._width ∧
      (on_touch what screenX screenY w)._height = w._height) ∧
    (∀ (h : Hook) (w : World),
      (callHook gl pf h w).world._x = w._x ∧
      (callHook gl pf h w).world._y = w._y ∧
      (callHook gl pf h w).world.state = w.state) ∧
    (∀ (hs : List Hook) (w : World),
      (run gl pf (hs.map .hook) w).world._x = w._x ∧
      (run gl pf (hs.map .hook) w).world._y = w._y ∧
      (run gl pf (hs.map .hook) w).world.state = w.state) ∧
    (∀ w : World,
      (gdt_hook_save_state pf w).world.vars = w.vars ∧
      (gdt_hook_save_state pf w).world._offsetUniform = w._offsetUniform) := by
  refine ⟨?_, ?_, ?_, ?_⟩
  · intro what screenX screenY w
    obtain ⟨h1, h2, h3, -, -⟩ := on_touch_frame what screenX screenY w
    exact ⟨h1, h2, h3⟩
  · intro h w
    have hd := (callHook_frame gl pf h w).1
    simp only [World.drag, Prod.mk.injEq] at hd
    exact hd
  · intro hs w
    have hd := run_hooks_drag gl pf hs w
    simp only [World.drag, Prod.mk.injEq] at hd
    exact hd
  · intro w
    simp only [gdt_hook_save_state, ASSERT]
    split
    · split <;> exact ⟨rfl, rfl⟩
    · exact ⟨rfl, rfl⟩

/-! ## C8: the range of the square's position -/

end SimpleExample
